import Mathlib

/-!
Formal model of the `run` command of this repository (src/main/run.go):
the configuration-resolution algorithm (`getConfigFilePath`, `readConfDir`,
`getRegepxByFormat`), and the process lifecycle of `executeRun`
(dump / test / run modes, exit codes, deferred cleanup, the termination
channel, and the tray toggle loop of `background`).
-/

namespace XrayRun

/-! ### Directory-scan file-name matching (getRegepxByFormat / readConfDir) -/

/-- Whether a character list contains a newline.  This models the Go
regular-expression metacharacter `.`, which matches any character except
a newline. -/
def containsNL : List Char → Bool
  | [] => false
  | c :: cs => c == '\n' || containsNL cs

/-- Semantics of one alternative of the anchored Go patterns returned by
`getRegepxByFormat` (shape `^.+\.EXT$`) applied to a whole file name:
the name is a nonempty stem containing no newline (since `.` matches any
character but newline, and `+` demands at least one), followed by a
literal dot and the extension. -/
def matchesExt (name ext : String) : Bool :=
  ('.' :: ext.data).isSuffixOf name.data
    && decide (ext.data.length + 1 < name.data.length)
    && !containsNL (name.data.take (name.data.length - (ext.data.length + 1)))

/-- Model of Go `strings.ToLower` as used on the `-format` flag value
(the values compared against are all ASCII). -/
def toLowerStr (s : String) : String := String.mk (s.data.map Char.toLower)

/-- `getRegepxByFormat` from run.go.  The source returns one of the
regular expressions `^.+\.(json|jsonc)$`, `^.+\.toml$`,
`^.+\.(yaml|yml)$`, `^.+\.(json|jsonc|toml|yaml|yml)$`; each is
represented here by its list of extension alternatives, with the common
pattern shape interpreted by `matchesExt`. -/
def getRegepxByFormat (format : String) : List String :=
  if toLowerStr format = "json" then ["json", "jsonc"]
  else if toLowerStr format = "toml" then ["toml"]
  else if toLowerStr format = "yaml" ∨ toLowerStr format = "yml" then ["yaml", "yml"]
  else ["json", "jsonc", "toml", "yaml", "yml"]

/-- The test `regexp.MatchString(getRegepxByFormat(), f.Name())` that
`readConfDir` applies to each directory entry. -/
def readConfDirMatch (format name : String) : Bool :=
  (getRegepxByFormat format).any (fun e => matchesExt name e)

/-- Modelled from the spec: the extension table of §4.2, mapping a format
selector to its extension set (json ↦ json,jsonc; toml ↦ toml;
yaml ↦ yaml,yml; auto ↦ the union of all). -/
def specFormatExts (formatSelector : String) : List String :=
  if formatSelector = "json" then ["json", "jsonc"]
  else if formatSelector = "toml" then ["toml"]
  else if formatSelector = "yaml" then ["yaml", "yml"]
  else ["json", "jsonc", "toml", "yaml", "yml"]

/-- Modelled from the spec: a file name matches an extension set when it
consists of a nonempty stem followed by a dot and one of the listed
extensions. -/
def specTableMatch (exts : List String) (name : String) : Bool :=
  exts.any (fun e =>
    ('.' :: e.data).isSuffixOf name.data
      && decide (e.data.length + 1 < name.data.length))

lemma containsNL_take (l : List Char) (k : Nat) (h : containsNL l = false) :
    containsNL (l.take k) = false := by
  induction l generalizing k with
  | nil => cases k <;> rfl
  | cons c cs ih =>
    cases k with
    | zero => rfl
    | succ k =>
      simp only [containsNL, Bool.or_eq_false_iff] at h
      simp only [List.take_succ_cons, containsNL, Bool.or_eq_false_iff]
      exact ⟨h.1, ih k h.2⟩

lemma matchesExt_of_noNL (name ext : String) (h : containsNL name.data = false) :
    matchesExt name ext =
      (('.' :: ext.data).isSuffixOf name.data
        && decide (ext.data.length + 1 < name.data.length)) := by
  unfold matchesExt
  rw [containsNL_take _ _ h]
  simp

/-- C9: the directory-scan filename filtering matches exactly the
extension table: `json` selects `*.json` and `*.jsonc`, `toml` selects
`*.toml`, `yaml` selects `*.yaml` and `*.yml`, and `auto` selects the
union of all of these; a name with an extension outside the table, such
as `c.yamlx`, never matches under any format selector. -/
theorem c9_extension_table :
    (∀ name : String, containsNL name.data = false →
      readConfDirMatch "json" name = specTableMatch (specFormatExts "json") name
      ∧ readConfDirMatch "toml" name = specTableMatch (specFormatExts "toml") name
      ∧ readConfDirMatch "yaml" name = specTableMatch (specFormatExts "yaml") name
      ∧ readConfDirMatch "auto" name = specTableMatch (specFormatExts "auto") name)
    ∧ (∀ format : String, readConfDirMatch format "c.yamlx" = false) := by
  constructor
  · intro name h
    refine ⟨?_, ?_, ?_, ?_⟩ <;>
      simp [readConfDirMatch, getRegepxByFormat, specTableMatch, specFormatExts,
        matchesExt_of_noNL _ _ h, toLowerStr]
  · intro format
    unfold readConfDirMatch getRegepxByFormat
    split
    · decide
    split
    · decide
    split
    · decide
    · decide

/-- Witness for C9 at concrete inputs. -/
theorem c9_extension_table_witness :
    readConfDirMatch "json" "a.jsonc" = specTableMatch (specFormatExts "json") "a.jsonc"
    ∧ readConfDirMatch "auto" "c.yamlx" = false :=
  ⟨(c9_extension_table.1 "a.jsonc" (by decide)).1, c9_extension_table.2 "auto"⟩

/-- C10: a file name that is only an extension with nothing before the
dot (".json", ".jsonc", ".toml", ".yaml", ".yml") never matches any
format selector, because the pattern requires at least one character
before the final dot. -/
theorem c10_dotfile_never_matches (format : String) :
    readConfDirMatch format ".json" = false
    ∧ readConfDirMatch format ".jsonc" = false
    ∧ readConfDirMatch format ".toml" = false
    ∧ readConfDirMatch format ".yaml" = false
    ∧ readConfDirMatch format ".yml" = false := by
  unfold readConfDirMatch getRegepxByFormat
  split
  · decide
  split
  · decide
  split
  · decide
  · decide

/-! ### Configuration resolution (getConfigFilePath) -/

/-- The inputs `getConfigFilePath` consumes: the global flag state
(`configFiles`, `configDir`, `format`), the platform environment lookups
(`platform.GetConfDirPath`, `platform.GetConfigurationPath`), and the
filesystem / process queries (`os.Stat` via `dirs`/`files`/`dirEntries`,
`os.Getwd` as `cwd`, `os.UserHomeDir` as `homeDir`, `none` meaning the
call errored). -/
structure FsEnv where
  configFiles : List String
  configDir : String
  envConfDir : String
  format : String
  dirs : List String
  files : List String
  dirEntries : List (String × List String)
  cwd : Option String
  envConfigFile : String
  homeDir : Option String

/-- `fileExists` from run.go: the path can be stat-ed and is not a
directory. -/
def fileExists (env : FsEnv) (file : String) : Bool := env.files.contains file

/-- `dirExists` from run.go: the path is nonempty, can be stat-ed and is
a directory. -/
def dirExists (env : FsEnv) (file : String) : Bool :=
  !(file == "") && env.dirs.contains file

/-- Model of Go `path.Join` / `filepath.Join` restricted to the clean,
slash-separated arguments this program produces (no `.` or `..`
segments, no trailing slash on the first argument); on these the result
of Go's join-then-clean is plain concatenation with exactly one slash at
the seam. -/
def pathJoin (a b : String) : String :=
  if a = "" then b
  else if b = "" then a
  else if b.data.headD ' ' == '/' then a ++ b
  else a ++ "/" ++ b

/-- Model of Go `filepath.Abs`: an absolute path is returned as is, a
relative path is joined to the working directory, and the call fails
(`none`) when the working directory is unavailable. -/
def pathAbs (cwd : Option String) (p : String) : Option String :=
  if p.data.headD ' ' == '/' then some p
  else
    match cwd with
    | some wd => some (pathJoin wd p)
    | none => none

/-- The directory listing `os.ReadDir` returns for a directory, in
listing order. -/
def dirEntriesOf (env : FsEnv) (d : String) : List String :=
  (env.dirEntries.lookup d).getD []

/-- `readConfDir` from run.go as a pure function: each entry of the
directory whose name matches the format's pattern is joined to the
directory path and appended (via `configFiles.Set`) to the accumulated
config-file list, in listing order.  The fatal error paths (unreadable
directory, failing match call) are modelled in the lifecycle section
below, since they abort the process. -/
def readConfDir (env : FsEnv) (dirPath : String) (acc : List String) : List String :=
  acc ++ ((dirEntriesOf env dirPath).filter
      (fun n => readConfDirMatch env.format n)).map (fun n => pathJoin dirPath n)

/-- `DefaultConfigFileLocation` from run.go. -/
def DefaultConfigFileLocation : String := "~/.xray/config.json"

/-- `getConfigFilePath` from run.go (the `verbose` parameter only
controls logging and is omitted): scan the flag config directory if it
exists, else the environment config directory if it exists; return the
accumulated config files if any; else the working directory's
`config.json` if it exists; else the environment config file if it
exists; else expand `~` of `DefaultConfigFileLocation` with the home
directory, returning an empty list when the home directory (or the
absolute path) cannot be resolved. -/
def getConfigFilePath (env : FsEnv) : List String :=
  let cf :=
    if dirExists env env.configDir then readConfDir env env.configDir env.configFiles
    else if dirExists env env.envConfDir then readConfDir env env.envConfDir env.configFiles
    else env.configFiles
  if 0 < cf.length then cf
  else
    match env.cwd with
    | some workingDir =>
      if fileExists env (pathJoin workingDir "config.json") then
        [pathJoin workingDir "config.json"]
      else getConfigFilePathTail env
    | none => getConfigFilePathTail env
where
  /-- The part of `getConfigFilePath` after the working-directory check:
  environment config file, then the `~/.xray/config.json` fallback. -/
  getConfigFilePathTail (env : FsEnv) : List String :=
    if fileExists env env.envConfigFile then [env.envConfigFile]
    else
      match env.homeDir with
      | none => []
      | some homeDir =>
        let relativePath :=
          if decide (0 < DefaultConfigFileLocation.data.length)
              && DefaultConfigFileLocation.data.headD ' ' == '~' then
            pathJoin homeDir (String.mk (DefaultConfigFileLocation.data.drop 1))
          else ""
        match pathAbs env.cwd relativePath with
        | none => []
        | some absolutePath => [absolutePath]

/-- C7 (amended): when the explicit config-file list is non-empty and
neither the flag config directory nor the environment config directory
exists as a directory, resolution returns exactly the explicit list,
unchanged and in order. -/
theorem c7_explicit_files_amended (env : FsEnv)
    (h1 : env.configFiles ≠ [])
    (h2 : dirExists env env.configDir = false)
    (h3 : dirExists env env.envConfDir = false) :
    getConfigFilePath env = env.configFiles := by
  unfold getConfigFilePath
  rw [h2, h3]
  simp [List.length_pos, h1]

/-- Witness environment for C7: one explicit file, no directories. -/
def c7WitnessEnv : FsEnv :=
  { configFiles := ["a.json", "b.json"], configDir := "", envConfDir := "",
    format := "auto", dirs := [], files := [], dirEntries := [],
    cwd := none, envConfigFile := "", homeDir := none }

/-- Witness for C7 (amended) at a concrete environment. -/
theorem c7_explicit_files_amended_witness :
    getConfigFilePath c7WitnessEnv = ["a.json", "b.json"] :=
  c7_explicit_files_amended c7WitnessEnv (by decide) (by decide) (by decide)

/-- Counterexample environment for C7 as stated: one explicit file, no
directory flag (`configDir = ""`), but an environment config directory
exists and contains a matching file. -/
def c7CexEnv : FsEnv :=
  { configFiles := ["a.json"], configDir := "", envConfDir := "/etc/xray",
    format := "auto", dirs := ["/etc/xray"], files := [],
    dirEntries := [("/etc/xray", ["b.json"])],
    cwd := none, envConfigFile := "", homeDir := none }

/-- Counterexample to C7 as stated: with a non-empty explicit list and
no directory flag, resolution can still append files scanned from the
environment config directory, so it does not return the explicit list
unchanged. -/
theorem c7_counterexample :
    c7CexEnv.configFiles = ["a.json"] ∧ c7CexEnv.configDir = ""
    ∧ getConfigFilePath c7CexEnv = ["a.json", "/etc/xray/b.json"]
    ∧ getConfigFilePath c7CexEnv ≠ c7CexEnv.configFiles := by
  refine ⟨rfl, rfl, by decide, by decide⟩

/-- C8: when no explicit files are given, no config directory (flag or
environment) exists, no `config.json` exists in the working directory,
and no environment-declared config file exists, then: with home
directory `/home/u` the resolver returns exactly
`["/home/u/.xray/config.json"]`, and with no resolvable home directory
it returns the empty result. -/
theorem c8_default_home_resolution (env : FsEnv)
    (h1 : env.configFiles = [])
    (h2 : dirExists env env.configDir = false)
    (h3 : dirExists env env.envConfDir = false)
    (h4 : ∀ wd, env.cwd = some wd → fileExists env (pathJoin wd "config.json") = false)
    (h5 : fileExists env env.envConfigFile = false) :
    (env.homeDir = some "/home/u" →
        getConfigFilePath env = ["/home/u/.xray/config.json"])
    ∧ (env.homeDir = none → getConfigFilePath env = []) := by
  have htail :
      (env.homeDir = some "/home/u" →
        getConfigFilePath.getConfigFilePathTail env = ["/home/u/.xray/config.json"])
      ∧ (env.homeDir = none → getConfigFilePath.getConfigFilePathTail env = []) := by
    constructor
    · intro hh
      unfold getConfigFilePath.getConfigFilePathTail
      rw [h5, hh]
      have hrel : pathJoin "/home/u" (String.mk (DefaultConfigFileLocation.data.drop 1))
          = "/home/u/.xray/config.json" := by decide
      have habs : pathAbs env.cwd "/home/u/.xray/config.json"
          = some "/home/u/.xray/config.json" := by
        unfold pathAbs
        rw [if_pos (by decide)]
      simp only [Bool.false_eq_true, if_false, if_pos (show (decide
          (0 < DefaultConfigFileLocation.data.length)
          && (DefaultConfigFileLocation.data.headD ' ' == '~')) = true by decide),
        hrel, habs]
    · intro hh
      unfold getConfigFilePath.getConfigFilePathTail
      rw [h5, hh]
      simp
  constructor
  · intro hh
    unfold getConfigFilePath
    rw [h2, h3, h1]
    simp only [Bool.false_eq_true, if_false, List.length_nil, Nat.lt_irrefl]
    cases hc : env.cwd with
    | none => exact htail.1 hh
    | some wd =>
      simp only [h4 wd hc, Bool.false_eq_true, if_false]
      exact htail.1 hh
  · intro hh
    unfold getConfigFilePath
    rw [h2, h3, h1]
    simp only [Bool.false_eq_true, if_false, List.length_nil, Nat.lt_irrefl]
    cases hc : env.cwd with
    | none => exact htail.2 hh
    | some wd =>
      simp only [h4 wd hc, Bool.false_eq_true, if_false]
      exact htail.2 hh

/-- Witness environment for C8: everything empty, home `/home/u`. -/
def c8WitnessEnv : FsEnv :=
  { configFiles := [], configDir := "", envConfDir := "", format := "auto",
    dirs := [], files := [], dirEntries := [], cwd := some "/work",
    envConfigFile := "config.json", homeDir := some "/home/u" }

/-- Witness for C8 at a concrete environment. -/
theorem c8_default_home_resolution_witness :
    getConfigFilePath c8WitnessEnv = ["/home/u/.xray/config.json"] :=
  (c8_default_home_resolution c8WitnessEnv rfl (by decide) (by decide)
    (by intro wd h; cases h; decide) (by decide)).1 rfl

/-! ### Process lifecycle (executeRun / dumpConfig / startXray / background)

The observable effects of `executeRun` are modelled as a trace of
events plus the process exit code.  I/O outcomes that the code branches
on (flag values, directory-read errors, config-load / server-build /
start errors, which shutdown trigger fires first, how many tray toggle
clicks precede shutdown) are inputs of the model.  Go semantics
reflected here: deferred calls run on normal function return in LIFO
order, and `os.Exit` (also the one inside `log.Fatalln`, which exits
with code 1) terminates the process without running deferred calls. -/

/-- Call-site origin of a proxy enable/disable effect: the
unconditional enable at the top of `executeRun`, the toggle branch of
`background`, or the deferred shutdown-time disable. -/
inductive Origin
  | startup
  | toggle
  | shutdownDefer
  deriving DecidableEq, Repr

/-- Observable events of a run. -/
inductive Ev
  | enableProxy (o : Origin)
  | disableProxy (o : Origin)
  | dirScan
  | mergeConfig
  | loadConfig
  | newServer
  | startServer
  | closeServer
  | armListeners
  | raiseTerm
  deriving DecidableEq, Repr

/-- Which of the two shutdown triggers fires first while the server is
running: the OS termination signal, or the tray "quit" click. -/
inductive Shutdown
  | signal
  | trayQuit
  deriving DecidableEq, Repr

/-- Inputs of one `executeRun` invocation. -/
structure RunEnv where
  goosDarwin : Bool
  dump : Bool
  test : Bool
  useConfDir : Bool
  dirReadFails : Bool
  mergeFails : Bool
  loadFails : Bool
  buildFails : Bool
  startFails : Bool
  shutdown : Shutdown
  toggles : Nat
  deriving DecidableEq, Repr

/-- Result of a run: the event trace and the process exit code. -/
structure RunResult where
  trace : List Ev
  exit : Int
  deriving DecidableEq, Repr

/-- The events of the `runtime.GOOS == "darwin"` block at the top of
`executeRun`: the immediate `enableSysProxy` call (the matching
`defer disableSysProxy` runs only on normal return, see
`runningTrace`). -/
def preEvents (env : RunEnv) : List Ev :=
  if env.goosDarwin then [Ev.enableProxy Origin.startup] else []

/-- The directory-scan events of `getConfigFilePath` when a config
directory (flag or environment) exists and `os.ReadDir` succeeds. -/
def scanEvents (env : RunEnv) : List Ev :=
  if env.useConfDir then [Ev.dirScan] else []

/-- The toggle-click loop of `background` in run.go: `sysProxyState`
starts at 1 (enabled); a click disables the proxy when the state is 1
and enables it otherwise, flipping the state each time. -/
def toggleEvents : Nat → Nat → List Ev
  | _, 0 => []
  | s, n + 1 =>
    if s = 1 then Ev.disableProxy Origin.toggle :: toggleEvents 0 n
    else Ev.enableProxy Origin.toggle :: toggleEvents 1 n

/-- The trace of a run from the point where `Start` succeeded: toggle
clicks are served by `background`; then either the signal goroutine
closes the `end` channel, unblocking `executeRun`, whose deferred calls
run in LIFO order (`server.Close()`, then `disableSysProxy` on darwin) —
or the tray "quit" click calls `os.Exit(0)` directly, running no
deferred call. -/
def runningTrace (env : RunEnv) (tstart : List Ev) : List Ev :=
  match env.shutdown with
  | Shutdown.signal =>
    tstart ++ toggleEvents 1 env.toggles
      ++ [Ev.raiseTerm, Ev.closeServer]
      ++ (if env.goosDarwin then [Ev.disableProxy Origin.shutdownDefer] else [])
  | Shutdown.trayQuit => tstart ++ toggleEvents 1 env.toggles

/-- `executeRun` from run.go.  Branch order follows the source: the
darwin proxy-enable block; config resolution (a failing directory read
hits `log.Fatalln`, i.e. exit code 1, in both the dump path and the
`startXray` path); `-dump` merges and exits 0/23; `startXray` failure
(config load or server build) exits 23; `-test` exits 0 before `Start`;
a `Start` failure exits -1; otherwise the listeners are armed and the
run blocks until shutdown. -/
def executeRun (env : RunEnv) : RunResult :=
  if env.useConfDir && env.dirReadFails then
    { trace := preEvents env, exit := 1 }
  else if env.dump then
    { trace := preEvents env ++ scanEvents env ++ [Ev.mergeConfig],
      exit := if env.mergeFails then 23 else 0 }
  else if env.loadFails then
    { trace := preEvents env ++ scanEvents env ++ [Ev.loadConfig], exit := 23 }
  else if env.buildFails then
    { trace := preEvents env ++ scanEvents env ++ [Ev.loadConfig, Ev.newServer],
      exit := 23 }
  else if env.test then
    { trace := preEvents env ++ scanEvents env ++ [Ev.loadConfig, Ev.newServer],
      exit := 0 }
  else if env.startFails then
    { trace := preEvents env ++ scanEvents env
        ++ [Ev.loadConfig, Ev.newServer, Ev.startServer],
      exit := -1 }
  else
    { trace := runningTrace env (preEvents env ++ scanEvents env
        ++ [Ev.loadConfig, Ev.newServer, Ev.startServer, Ev.armListeners]),
      exit := 0 }

/-- A run reaches the Running state: no scan abort, no dump mode, config
loads, the server builds, no test mode, and `Start` succeeds. -/
def reachesRunning (env : RunEnv) : Bool :=
  !(env.useConfDir && env.dirReadFails) && !env.dump && !env.loadFails
    && !env.buildFails && !env.test && !env.startFails

lemma toggleEvents_mem {e : Ev} :
    ∀ n s, e ∈ toggleEvents s n →
      e = Ev.disableProxy Origin.toggle ∨ e = Ev.enableProxy Origin.toggle := by
  intro n
  induction n with
  | zero => intro s h; simp [toggleEvents] at h
  | succ n ih =>
    intro s h
    rw [toggleEvents] at h
    by_cases hs : s = 1
    · rw [if_pos hs] at h
      rcases List.mem_cons.mp h with h | h
      · exact Or.inl h
      · exact ih 0 h
    · rw [if_neg hs] at h
      rcases List.mem_cons.mp h with h | h
      · exact Or.inr h
      · exact ih 1 h

lemma not_mem_toggleEvents (e : Ev) (h1 : e ≠ Ev.disableProxy Origin.toggle)
    (h2 : e ≠ Ev.enableProxy Origin.toggle) (s n : Nat) :
    e ∉ toggleEvents s n := by
  intro hm
  rcases toggleEvents_mem n s hm with h | h
  · exact h1 h
  · exact h2 h

lemma toggleEvents_count_zero (e : Ev) (h1 : e ≠ Ev.disableProxy Origin.toggle)
    (h2 : e ≠ Ev.enableProxy Origin.toggle) (s n : Nat) :
    (toggleEvents s n).count e = 0 :=
  List.count_eq_zero.mpr (not_mem_toggleEvents e h1 h2 s n)

lemma tg_close_not_mem (s n : Nat) : Ev.closeServer ∉ toggleEvents s n :=
  not_mem_toggleEvents _ (by decide) (by decide) s n

lemma tg_raise_not_mem (s n : Nat) : Ev.raiseTerm ∉ toggleEvents s n :=
  not_mem_toggleEvents _ (by decide) (by decide) s n

lemma tg_disableSD_not_mem (s n : Nat) :
    Ev.disableProxy Origin.shutdownDefer ∉ toggleEvents s n :=
  not_mem_toggleEvents _ (by decide) (by decide) s n

lemma tg_enableStartup_not_mem (s n : Nat) :
    Ev.enableProxy Origin.startup ∉ toggleEvents s n :=
  not_mem_toggleEvents _ (by decide) (by decide) s n

lemma tg_arm_not_mem (s n : Nat) : Ev.armListeners ∉ toggleEvents s n :=
  not_mem_toggleEvents _ (by decide) (by decide) s n

lemma tg_close_count (s n : Nat) : (toggleEvents s n).count Ev.closeServer = 0 :=
  toggleEvents_count_zero _ (by decide) (by decide) s n

lemma tg_raise_count (s n : Nat) : (toggleEvents s n).count Ev.raiseTerm = 0 :=
  toggleEvents_count_zero _ (by decide) (by decide) s n

lemma tg_disableSD_count (s n : Nat) :
    (toggleEvents s n).count (Ev.disableProxy Origin.shutdownDefer) = 0 :=
  toggleEvents_count_zero _ (by decide) (by decide) s n

lemma executeRun_running (env : RunEnv) (h : reachesRunning env = true) :
    executeRun env =
      { trace := runningTrace env (preEvents env ++ scanEvents env
          ++ [Ev.loadConfig, Ev.newServer, Ev.startServer, Ev.armListeners]),
        exit := 0 } := by
  simp only [reachesRunning, Bool.and_eq_true, Bool.not_eq_true'] at h
  obtain ⟨⟨⟨⟨⟨h1, h2⟩, h3⟩, h4⟩, h5⟩, h6⟩ := h
  simp [executeRun, h1, h2, h3, h4, h5, h6]

lemma executeRun_not_running (env : RunEnv) (h : reachesRunning env = false) :
    (executeRun env).trace = preEvents env
    ∨ (executeRun env).trace = preEvents env ++ scanEvents env ++ [Ev.mergeConfig]
    ∨ (executeRun env).trace = preEvents env ++ scanEvents env ++ [Ev.loadConfig]
    ∨ (executeRun env).trace = preEvents env ++ scanEvents env ++ [Ev.loadConfig, Ev.newServer]
    ∨ (executeRun env).trace
        = preEvents env ++ scanEvents env
            ++ [Ev.loadConfig, Ev.newServer, Ev.startServer] := by
  cases hu : env.useConfDir <;> cases hdr : env.dirReadFails <;>
    cases hdm : env.dump <;> cases hlf : env.loadFails <;>
    cases hbf : env.buildFails <;> cases hts : env.test <;>
    cases hsf : env.startFails <;>
    simp_all [executeRun, reachesRunning]

/-- C1 (amended): a config-load, server-build, or dump-mode merge
failure exits with code 23, and a `Start` failure exits with -1, a
nonzero code different from 23 — but a directory-scan failure exits
with code 1 (the `log.Fatalln` exit code), not 23. -/
theorem c1_exit_codes_amended (env : RunEnv) :
    ((env.useConfDir && env.dirReadFails) = true → (executeRun env).exit = 1)
    ∧ ((env.useConfDir && env.dirReadFails) = false → env.dump = true →
        env.mergeFails = true → (executeRun env).exit = 23)
    ∧ ((env.useConfDir && env.dirReadFails) = false → env.dump = false →
        env.loadFails = true → (executeRun env).exit = 23)
    ∧ ((env.useConfDir && env.dirReadFails) = false → env.dump = false →
        env.loadFails = false → env.buildFails = true → (executeRun env).exit = 23)
    ∧ ((env.useConfDir && env.dirReadFails) = false → env.dump = false →
        env.loadFails = false → env.buildFails = false → env.test = false →
        env.startFails = true →
        (executeRun env).exit = -1 ∧ (executeRun env).exit ≠ 23
          ∧ (executeRun env).exit ≠ 0) := by
  have hcond : (env.useConfDir && env.dirReadFails) = false →
      ¬(env.useConfDir = true ∧ env.dirReadFails = true) := by
    intro h1 hc
    rw [hc.1, hc.2] at h1
    simp at h1
  refine ⟨?_, ?_, ?_, ?_, ?_⟩
  · intro h1
    simp_all [executeRun]
  · intro h1 h2 h3
    simp [executeRun, hcond h1, h2, h3]
  · intro h1 h2 h3
    simp [executeRun, hcond h1, h2, h3]
  · intro h1 h2 h3 h4
    simp [executeRun, hcond h1, h2, h3, h4]
  · intro h1 h2 h3 h4 h5 h6
    simp [executeRun, hcond h1, h2, h3, h4, h5, h6]

/-- Counterexample environment for C1 as stated: a directory scan that
fails (`os.ReadDir` error in `readConfDir`) in run mode. -/
def c1CexEnv : RunEnv :=
  { goosDarwin := false, dump := false, test := false, useConfDir := true,
    dirReadFails := true, mergeFails := false, loadFails := false,
    buildFails := false, startFails := false, shutdown := Shutdown.signal,
    toggles := 0 }

/-- Counterexample to C1 as stated: a directory-scan failure is a
failure strictly before `start()` is attempted, yet the process exits
with code 1, not 23. -/
theorem c1_counterexample :
    c1CexEnv.useConfDir = true ∧ c1CexEnv.dirReadFails = true
    ∧ Ev.startServer ∉ (executeRun c1CexEnv).trace
    ∧ (executeRun c1CexEnv).exit = 1 ∧ (executeRun c1CexEnv).exit ≠ 23 := by
  decide

/-- Witness environment for C1 (amended): a config-load failure. -/
def c1WitnessEnv : RunEnv :=
  { goosDarwin := true, dump := false, test := false, useConfDir := false,
    dirReadFails := false, mergeFails := false, loadFails := true,
    buildFails := false, startFails := false, shutdown := Shutdown.signal,
    toggles := 0 }

/-- Second witness environment for C1 (amended): a `Start` failure. -/
def c1WitnessEnv2 : RunEnv :=
  { goosDarwin := false, dump := false, test := false, useConfDir := false,
    dirReadFails := false, mergeFails := false, loadFails := false,
    buildFails := false, startFails := true, shutdown := Shutdown.signal,
    toggles := 0 }

/-- Witness for C1 (amended) at concrete environments. -/
theorem c1_exit_codes_amended_witness :
    (executeRun c1WitnessEnv).exit = 23 ∧ (executeRun c1WitnessEnv2).exit = -1 :=
  ⟨(c1_exit_codes_amended c1WitnessEnv).2.2.1 rfl rfl rfl,
   ((c1_exit_codes_amended c1WitnessEnv2).2.2.2.2 rfl rfl rfl rfl rfl rfl).1⟩

/-- C2 (amended): after `Start` succeeds, `Close` is invoked exactly
once on a termination-signal shutdown, but on a tray-quit shutdown the
process exits inside the click handler without running the deferred
`Close`; `Close` is never invoked on a run in which `Start` failed or
was never reached. -/
theorem c2_close_amended (env : RunEnv) :
    (reachesRunning env = true → env.shutdown = Shutdown.signal →
      ((executeRun env).trace.count Ev.closeServer) = 1)
    ∧ (reachesRunning env = true → env.shutdown = Shutdown.trayQuit →
      Ev.closeServer ∉ (executeRun env).trace)
    ∧ (reachesRunning env = false → Ev.closeServer ∉ (executeRun env).trace) := by
  have hpre : Ev.closeServer ∉ preEvents env := by
    unfold preEvents; split <;> simp
  have hscan : Ev.closeServer ∉ scanEvents env := by
    unfold scanEvents; split <;> simp
  refine ⟨?_, ?_, ?_⟩
  · intro hr hs
    rw [executeRun_running env hr]
    simp only [runningTrace, hs]
    cases hgd : env.goosDarwin <;>
      simp [List.count_append, List.count_eq_zero.mpr hpre,
        List.count_eq_zero.mpr hscan, tg_close_count]
  · intro hr hs
    rw [executeRun_running env hr]
    simp only [runningTrace, hs]
    simp [List.mem_append, hpre, hscan, tg_close_not_mem 1 env.toggles]
  · intro hr
    rcases executeRun_not_running env hr with h | h | h | h | h <;> rw [h] <;>
      simp [List.mem_append, hpre, hscan]

/-- Counterexample environment for C2 as stated: `Start` succeeded, two
toggle clicks, then shutdown by tray quit. -/
def c2CexEnv : RunEnv :=
  { goosDarwin := true, dump := false, test := false, useConfDir := false,
    dirReadFails := false, mergeFails := false, loadFails := false,
    buildFails := false, startFails := false, shutdown := Shutdown.trayQuit,
    toggles := 2 }

/-- Counterexample to C2 as stated: on the tray-quit exit path of a run
whose `Start` succeeded, `Close` is never invoked. -/
theorem c2_counterexample :
    reachesRunning c2CexEnv = true ∧ c2CexEnv.shutdown = Shutdown.trayQuit
    ∧ Ev.closeServer ∉ (executeRun c2CexEnv).trace := by
  decide

/-- Witness environment for C2 (amended): signal shutdown after one
toggle click. -/
def c2WitnessEnv : RunEnv :=
  { goosDarwin := true, dump := false, test := false, useConfDir := false,
    dirReadFails := false, mergeFails := false, loadFails := false,
    buildFails := false, startFails := false, shutdown := Shutdown.signal,
    toggles := 1 }

/-- Witness for C2 (amended) at a concrete environment. -/
theorem c2_close_amended_witness :
    ((executeRun c2WitnessEnv).trace.count Ev.closeServer) = 1 :=
  (c2_close_amended c2WitnessEnv).1 (by decide) rfl

/-- C3 (amended): on a termination-signal shutdown of a running server
on the darwin platform, the deferred shutdown-time "disable system
proxy" effect is invoked exactly once regardless of how many toggle
clicks preceded it and of the toggle's state — but on a tray-quit
shutdown the deferred disable is skipped entirely. -/
theorem c3_disable_on_shutdown_amended (env : RunEnv) :
    (reachesRunning env = true → env.goosDarwin = true →
      env.shutdown = Shutdown.signal →
      ((executeRun env).trace.count (Ev.disableProxy Origin.shutdownDefer)) = 1)
    ∧ (reachesRunning env = true → env.shutdown = Shutdown.trayQuit →
      Ev.disableProxy Origin.shutdownDefer ∉ (executeRun env).trace) := by
  have hpre : Ev.disableProxy Origin.shutdownDefer ∉ preEvents env := by
    unfold preEvents; split <;> simp
  have hscan : Ev.disableProxy Origin.shutdownDefer ∉ scanEvents env := by
    unfold scanEvents; split <;> simp
  refine ⟨?_, ?_⟩
  · intro hr hgd hs
    rw [executeRun_running env hr]
    simp only [runningTrace, hs, hgd]
    simp [List.count_append, List.count_eq_zero.mpr hpre,
      List.count_eq_zero.mpr hscan, tg_disableSD_count]
  · intro hr hs
    rw [executeRun_running env hr]
    simp only [runningTrace, hs]
    simp [List.mem_append, hpre, hscan, tg_disableSD_not_mem 1 env.toggles]

/-- Counterexample environment for C3 as stated: darwin, `Start`
succeeded, three toggle clicks, then shutdown by tray quit. -/
def c3CexEnv : RunEnv :=
  { goosDarwin := true, dump := false, test := false, useConfDir := false,
    dirReadFails := false, mergeFails := false, loadFails := false,
    buildFails := false, startFails := false, shutdown := Shutdown.trayQuit,
    toggles := 3 }

/-- Counterexample to C3 as stated: on a tray-quit shutdown of a running
server, the shutdown-time disable effect is invoked zero times, not
exactly once. -/
theorem c3_counterexample :
    reachesRunning c3CexEnv = true ∧ c3CexEnv.goosDarwin = true
    ∧ c3CexEnv.shutdown = Shutdown.trayQuit
    ∧ Ev.disableProxy Origin.shutdownDefer ∉ (executeRun c3CexEnv).trace := by
  decide

/-- Witness environment for C3 (amended): darwin, signal shutdown after
four toggle clicks. -/
def c3WitnessEnv : RunEnv :=
  { goosDarwin := true, dump := false, test := false, useConfDir := false,
    dirReadFails := false, mergeFails := false, loadFails := false,
    buildFails := false, startFails := false, shutdown := Shutdown.signal,
    toggles := 4 }

/-- Witness for C3 (amended) at a concrete environment. -/
theorem c3_disable_on_shutdown_amended_witness :
    ((executeRun c3WitnessEnv).trace.count (Ev.disableProxy Origin.shutdownDefer)) = 1 :=
  (c3_disable_on_shutdown_amended c3WitnessEnv).1 (by decide) rfl rfl

/-- C4 (amended): on darwin the proxy-enable effect is performed
unconditionally as the very first effect of every run — including dump
mode, test mode, and failing runs — hence in particular before the tray
listeners are armed; the tray listeners themselves are armed exactly on
the runs that reach the Running state (i.e. after `Start` succeeds). -/
theorem c4_enable_and_arming_amended (env : RunEnv) :
    (env.goosDarwin = true →
      (executeRun env).trace.head? = some (Ev.enableProxy Origin.startup))
    ∧ (env.goosDarwin = false →
      Ev.enableProxy Origin.startup ∉ (executeRun env).trace)
    ∧ (Ev.armListeners ∈ (executeRun env).trace ↔ reachesRunning env = true) := by
  have hscanEn : Ev.enableProxy Origin.startup ∉ scanEvents env := by
    unfold scanEvents; split <;> simp
  have hpreArm : Ev.armListeners ∉ preEvents env := by
    unfold preEvents; split <;> simp
  have hscanArm : Ev.armListeners ∉ scanEvents env := by
    unfold scanEvents; split <;> simp
  refine ⟨?_, ?_, ?_⟩
  · intro hgd
    cases hu : env.useConfDir <;> cases hdr : env.dirReadFails <;>
      cases hdm : env.dump <;> cases hlf : env.loadFails <;>
      cases hbf : env.buildFails <;> cases hts : env.test <;>
      cases hsf : env.startFails <;> cases hsd : env.shutdown <;>
      simp [executeRun, runningTrace, preEvents, hgd, hu, hdr, hdm, hlf, hbf,
        hts, hsf, hsd, List.singleton_append]
  · intro hgd
    have hpreEn : preEvents env = [] := by simp [preEvents, hgd]
    cases hu : env.useConfDir <;> cases hdr : env.dirReadFails <;>
      cases hdm : env.dump <;> cases hlf : env.loadFails <;>
      cases hbf : env.buildFails <;> cases hts : env.test <;>
      cases hsf : env.startFails <;> cases hsd : env.shutdown <;>
      simp [executeRun, runningTrace, hpreEn, hscanEn, hu, hdr, hdm, hlf, hbf,
        hts, hsf, hsd, List.mem_append, tg_enableStartup_not_mem 1 env.toggles]
  · cases hu : env.useConfDir <;> cases hdr : env.dirReadFails <;>
      cases hdm : env.dump <;> cases hlf : env.loadFails <;>
      cases hbf : env.buildFails <;> cases hts : env.test <;>
      cases hsf : env.startFails <;> cases hsd : env.shutdown <;>
      simp [executeRun, reachesRunning, runningTrace, hpreArm, hscanArm, hu,
        hdr, hdm, hlf, hbf, hts, hsf, hsd, List.mem_append,
        tg_arm_not_mem 1 env.toggles]

/-- Counterexample environment for C4 as stated: darwin in dump mode. -/
def c4CexEnv : RunEnv :=
  { goosDarwin := true, dump := true, test := false, useConfDir := false,
    dirReadFails := false, mergeFails := false, loadFails := false,
    buildFails := false, startFails := false, shutdown := Shutdown.signal,
    toggles := 0 }

/-- Counterexample to C4 as stated: in dump mode on darwin the
proxy-enable effect is performed even though the Running state (and
`Start`) is never reached. -/
theorem c4_counterexample :
    c4CexEnv.dump = true ∧ Ev.startServer ∉ (executeRun c4CexEnv).trace
    ∧ Ev.enableProxy Origin.startup ∈ (executeRun c4CexEnv).trace := by
  decide

/-- Witness environment for C4 (amended): darwin in test mode. -/
def c4WitnessEnv : RunEnv :=
  { goosDarwin := true, dump := false, test := true, useConfDir := false,
    dirReadFails := false, mergeFails := false, loadFails := false,
    buildFails := false, startFails := false, shutdown := Shutdown.signal,
    toggles := 0 }

/-- Witness for C4 (amended) at a concrete environment. -/
theorem c4_enable_and_arming_amended_witness :
    (executeRun c4WitnessEnv).trace.head? = some (Ev.enableProxy Origin.startup) :=
  (c4_enable_and_arming_amended c4WitnessEnv).1 rfl

/-- C5 (amended): the once-only termination event (the `end` channel)
is raised exactly once on a signal-triggered shutdown, by the OS-signal
listener alone; the tray "quit" handler exits the process directly and
never raises it, and no toggle click ever raises it. -/
theorem c5_termination_event_amended (env : RunEnv) :
    (reachesRunning env = true → env.shutdown = Shutdown.signal →
      ((executeRun env).trace.count Ev.raiseTerm) = 1)
    ∧ (env.shutdown = Shutdown.trayQuit → Ev.raiseTerm ∉ (executeRun env).trace)
    ∧ (reachesRunning env = false → Ev.raiseTerm ∉ (executeRun env).trace) := by
  have hpre : Ev.raiseTerm ∉ preEvents env := by
    unfold preEvents; split <;> simp
  have hscan : Ev.raiseTerm ∉ scanEvents env := by
    unfold scanEvents; split <;> simp
  have hnot : reachesRunning env = false → Ev.raiseTerm ∉ (executeRun env).trace := by
    intro hr
    rcases executeRun_not_running env hr with h | h | h | h | h <;> rw [h] <;>
      simp [List.mem_append, hpre, hscan]
  refine ⟨?_, ?_, hnot⟩
  · intro hr hs
    rw [executeRun_running env hr]
    simp only [runningTrace, hs]
    cases hgd : env.goosDarwin <;>
      simp [List.count_append, List.count_eq_zero.mpr hpre,
        List.count_eq_zero.mpr hscan, tg_raise_count]
  · intro hs
    cases hb : reachesRunning env
    · exact hnot hb
    · rw [executeRun_running env hb]
      simp only [runningTrace, hs]
      simp [List.mem_append, hpre, hscan, tg_raise_not_mem 1 env.toggles]

/-- Counterexample environment for C5 as stated: `Start` succeeded, one
toggle click, then shutdown by tray quit. -/
def c5CexEnv : RunEnv :=
  { goosDarwin := false, dump := false, test := false, useConfDir := false,
    dirReadFails := false, mergeFails := false, loadFails := false,
    buildFails := false, startFails := false, shutdown := Shutdown.trayQuit,
    toggles := 1 }

/-- Counterexample to C5 as stated: when the tray "quit" click ends the
run, the termination event is never raised — the quit handler calls the
process exit directly instead of writing to the once-only event. -/
theorem c5_counterexample :
    reachesRunning c5CexEnv = true ∧ c5CexEnv.shutdown = Shutdown.trayQuit
    ∧ Ev.raiseTerm ∉ (executeRun c5CexEnv).trace := by
  decide

/-- Witness environment for C5 (amended): signal shutdown after five
toggle clicks. -/
def c5WitnessEnv : RunEnv :=
  { goosDarwin := false, dump := false, test := false, useConfDir := false,
    dirReadFails := false, mergeFails := false, loadFails := false,
    buildFails := false, startFails := false, shutdown := Shutdown.signal,
    toggles := 5 }

/-- Witness for C5 (amended) at a concrete environment. -/
theorem c5_termination_event_amended_witness :
    ((executeRun c5WitnessEnv).trace.count Ev.raiseTerm) = 1 :=
  (c5_termination_event_amended c5WitnessEnv).1 (by decide) rfl

/-- C6: dump mode never builds the server and never calls `start()`
(only the config merge); test mode never calls `start()`, and (when
resolution, load and build succeed) does build the server; run mode
(when resolution, load and build succeed) both builds the server and
calls `start()`. -/
theorem c6_mode_call_discipline (env : RunEnv) :
    (env.dump = true →
      Ev.newServer ∉ (executeRun env).trace
        ∧ Ev.startServer ∉ (executeRun env).trace)
    ∧ (env.test = true → Ev.startServer ∉ (executeRun env).trace)
    ∧ (env.dump = false → (env.useConfDir && env.dirReadFails) = false →
        env.loadFails = false → env.buildFails = false →
        Ev.newServer ∈ (executeRun env).trace)
    ∧ (env.dump = false → env.test = false →
        (env.useConfDir && env.dirReadFails) = false →
        env.loadFails = false → env.buildFails = false →
        Ev.startServer ∈ (executeRun env).trace) := by
  have hpreNew : Ev.newServer ∉ preEvents env := by
    unfold preEvents; split <;> simp
  have hscanNew : Ev.newServer ∉ scanEvents env := by
    unfold scanEvents; split <;> simp
  have hpreStart : Ev.startServer ∉ preEvents env := by
    unfold preEvents; split <;> simp
  have hscanStart : Ev.startServer ∉ scanEvents env := by
    unfold scanEvents; split <;> simp
  refine ⟨?_, ?_, ?_, ?_⟩
  · intro hd
    cases hu : env.useConfDir <;> cases hdr : env.dirReadFails <;>
      simp [executeRun, hd, hu, hdr, List.mem_append, hpreNew, hscanNew,
        hpreStart, hscanStart]
  · intro ht
    cases hu : env.useConfDir <;> cases hdr : env.dirReadFails <;>
      cases hdm : env.dump <;> cases hlf : env.loadFails <;>
      cases hbf : env.buildFails <;>
      simp [executeRun, ht, hu, hdr, hdm, hlf, hbf, List.mem_append, hpreStart,
        hscanStart]
  · intro hd hud hlf hbf
    cases hu : env.useConfDir <;> cases hdr : env.dirReadFails <;>
      cases hts : env.test <;> cases hsf : env.startFails <;>
      cases hsd : env.shutdown <;>
      simp_all [executeRun, runningTrace, List.mem_append]
  · intro hd ht hud hlf hbf
    cases hu : env.useConfDir <;> cases hdr : env.dirReadFails <;>
      cases hsf : env.startFails <;> cases hsd : env.shutdown <;>
      simp_all [executeRun, runningTrace, List.mem_append]

/-- Witness environment for C6: a successful run-mode run. -/
def c6RunEnv : RunEnv :=
  { goosDarwin := false, dump := false, test := false, useConfDir := false,
    dirReadFails := false, mergeFails := false, loadFails := false,
    buildFails := false, startFails := false, shutdown := Shutdown.signal,
    toggles := 0 }

/-- Second witness environment for C6: a dump-mode run. -/
def c6DumpEnv : RunEnv :=
  { goosDarwin := false, dump := true, test := false, useConfDir := true,
    dirReadFails := false, mergeFails := false, loadFails := false,
    buildFails := false, startFails := false, shutdown := Shutdown.signal,
    toggles := 0 }

/-- Witness for C6 at concrete environments. -/
theorem c6_mode_call_discipline_witness :
    Ev.startServer ∈ (executeRun c6RunEnv).trace
    ∧ Ev.startServer ∉ (executeRun c6DumpEnv).trace :=
  ⟨(c6_mode_call_discipline c6RunEnv).2.2.2 rfl rfl rfl rfl rfl,
   ((c6_mode_call_discipline c6DumpEnv).1 rfl).2⟩

end XrayRun
